import Mathlib

/-!
Verification of the manila_payroll_backend HTTP CRUD service.

The development shallowly embeds the request handlers of the repository:

* `src/unnamed/part_000` — the database gateway (`dbconfig`, lines 1-269) and
  the departments router (the second variant, lines 490-690, which the
  application mounts);
* `src/routes/employees.js` — the employees router;
* `src/app.js` — the `/api/stats` aggregate endpoint and the terminal error
  handler.

Handlers are pure functions from a `Store` (the relational state: the
`departments` and `employees` tables) and the request inputs to a result
record carrying the HTTP status, the response body fields, the list of SQL
statements the handler issued (in order), and the post-state of the store.
JavaScript peculiarities that the routes rely on (string truthiness,
`isNaN` numeric coercion, `Math.round`) and the MySQL behaviours they hit
(string-to-number coercion of parameters, case-insensitive comparison,
the UNIQUE constraint on `departments.name`) are modelled explicitly below.

Numbers that flow between JavaScript and SQL are represented by `Frac`, an
explicit integer fraction (every decimal literal the routes handle is such
a fraction); `DECIMAL(10,2)` salary columns are held in integer cents.
All definitions are executable and reduce in the kernel, so witnesses can
be checked with `decide`.
-/

namespace Payroll

/-! ## Exact fractions -/

/-- An integer fraction `num / den`.  Every constructor used by the model
produces a positive denominator; fractions are not normalised, and all
numeric comparisons go through cross-multiplication, so normalisation is
never needed. -/
structure Frac where
  num : Int
  den : Nat
  deriving Repr, DecidableEq

def Frac.ofInt (n : Int) : Frac := ⟨n, 1⟩

def Frac.ofNat (n : Nat) : Frac := ⟨(n : Int), 1⟩

/-- Numeric equality of fractions (cross-multiplication). -/
def Frac.eqv (a b : Frac) : Bool :=
  a.num * (b.den : Int) == b.num * (a.den : Int)

/-- Numeric strict order (correct for positive denominators). -/
def Frac.blt (a b : Frac) : Bool :=
  decide (a.num * (b.den : Int) < b.num * (a.den : Int))

/-- Is the fraction an integer? -/
def Frac.isInt (a : Frac) : Bool :=
  a.num.emod (a.den : Int) == 0

/-- The rational value of a fraction. -/
def Frac.toRat (a : Frac) : ℚ :=
  (a.num : ℚ) / (a.den : ℚ)

/-! ## JavaScript and MySQL primitives -/

/-- Digits of a decimal literal to a natural number. -/
def digitsToNat (cs : List Char) : Nat :=
  cs.foldl (fun a c => a * 10 + (c.toNat - 48)) 0

/-- The fraction `± (ip . fp)` written with integer digits `ip` and
fraction digits `fp`. -/
def mkFrac (neg : Bool) (ip fp : List Char) : Frac :=
  let n : Int := (digitsToNat ip * 10 ^ fp.length + digitsToNat fp : Nat)
  ⟨if neg then -n else n, 10 ^ fp.length⟩

/-- Leading/trailing-whitespace trim on characters (JavaScript `trim`,
MySQL's leading/trailing space handling). -/
def trimChars (cs : List Char) : List Char :=
  ((cs.dropWhile Char.isWhitespace).reverse.dropWhile Char.isWhitespace).reverse

/-- An optional minus sign peeled off a literal. -/
def splitSign : List Char → Bool × List Char
  | '-' :: cs => (true, cs)
  | '+' :: cs => (false, cs)
  | cs => (false, cs)

/-- JavaScript `ToNumber` on a string (`none` = NaN).  Trims surrounding
whitespace; the empty string is 0; otherwise an optional sign followed by a
decimal literal (`"12"`, `"12.5"`, `".5"`, `"3."`).  Exponent and hex forms
are not exercised by any route and are not modelled. -/
def strToNumber (s : String) : Option Frac :=
  let t := trimChars s.toList
  if t.isEmpty then some (Frac.ofInt 0)
  else
    let sg := splitSign t
    let ip := sg.2.takeWhile Char.isDigit
    let rest := sg.2.dropWhile Char.isDigit
    match rest with
    | [] => if ip.isEmpty then none else some (mkFrac sg.1 ip [])
    | '.' :: fs =>
        if fs.all Char.isDigit && !(ip.isEmpty && fs.isEmpty) then
          some (mkFrac sg.1 ip fs)
        else none
    | _ => none

/-- MySQL coercion of a string parameter compared against a numeric column:
the longest numeric prefix after trimming counts, and a string with no
numeric prefix compares as 0. -/
def mysqlStrToNum (s : String) : Frac :=
  let t := trimChars s.toList
  let sg := splitSign t
  let ip := sg.2.takeWhile Char.isDigit
  let rest := sg.2.dropWhile Char.isDigit
  let fp :=
    match rest with
    | '.' :: r => r.takeWhile Char.isDigit
    | _ => []
  if ip.isEmpty && fp.isEmpty then Frac.ofInt 0
  else mkFrac sg.1 ip fp

/-- Lower-cased string (kernel-computable `toLowerCase`). -/
def strToLower (s : String) : String :=
  String.mk (s.toList.map Char.toLower)

/-- Upper-cased string (kernel-computable `toUpperCase`). -/
def strToUpper (s : String) : String :=
  String.mk (s.toList.map Char.toUpper)

/-- MySQL string equality under the default case-insensitive collation. -/
def mysqlStrEq (a b : String) : Bool :=
  strToLower a == strToLower b

/-- SQL `column LIKE '%term%'` under the default case-insensitive collation:
containment of the term in the column value.  (Wildcard characters inside
the user-supplied term are not given their special meaning here; no claim
exercises them.) -/
def mysqlLikeContains (column term : String) : Bool :=
  decide ((strToLower term).toList <:+: (strToLower column).toList)

/-- JavaScript `url.startsWith("/api")`. -/
def startsWithApi (url : String) : Bool :=
  "/api".toList.isPrefixOf url.toList

/-- JavaScript `Math.round` on a fraction with positive denominator:
`⌊x + 1/2⌋`, computed as a euclidean integer division. -/
def jsRound (q : Frac) : ℤ :=
  Int.ediv (2 * q.num + (q.den : Int)) (2 * (q.den : Int))

/-- JavaScript `x || 0` applied to a possibly-NULL SQL aggregate. -/
def jsOrZero : Option Frac → Frac
  | none => Frac.ofInt 0
  | some q => q

/-- JavaScript `x || d` on a possibly-absent numeric HTTP status (0 is falsy). -/
def jsOrNat : Option Nat → Nat → Nat
  | none, d => d
  | some n, d => if n = 0 then d else n

/-- A JSON body value as the bulk-delete route sees an `ids` entry. -/
inductive JsValue where
  | num (q : Frac)
  | nan
  | str (s : String)
  | bool (b : Bool)
  | null
  deriving Repr, DecidableEq

/-- JavaScript `ToNumber` on a body value (`none` = NaN). -/
def jsToNumber : JsValue → Option Frac
  | .num q => some q
  | .nan => none
  | .str s => strToNumber s
  | .bool b => some (Frac.ofInt (if b then 1 else 0))
  | .null => some (Frac.ofInt 0)

/-- A JSON body field as the department routes see `name` / `description`:
absent (`undefined`), JSON `null`, or a string. -/
inductive BodyVal where
  | undef
  | null
  | str (s : String)
  deriving Repr, DecidableEq

/-- JavaScript truthiness of a department-route body field. -/
def truthyBV : BodyVal → Bool
  | .undef => false
  | .null => false
  | .str s => !(s == "")

/-- Bind parameter for `mysql2`: `undefined` is rejected client-side
(`none`), `null` becomes SQL NULL, a string passes through. -/
def bvToSqlParam : BodyVal → Option (Option String)
  | .undef => none
  | .null => some none
  | .str s => some (some s)

/-! ## Data model

The live schema is the one `createTables` provisions
(`src/unnamed/part_000` lines 64-205).  Timestamp columns are
store-assigned and no claim reads a department timestamp, so `Department`
omits them; `Employee` keeps `created_at` because the list route sorts by
it.  `salary` holds the `DECIMAL(10,2)` value in integer cents. -/

structure Department where
  id : Nat
  name : String
  description : Option String
  deriving Repr, DecidableEq

structure Employee where
  id : Nat
  employee_id : String
  first_name : String
  last_name : String
  email : String
  phone : Option String
  department_id : Option Nat
  position : String
  salary : Int
  hire_date : String
  status : String
  created_at : Nat
  deriving Repr, DecidableEq

/-- The relational store: the two tables. -/
structure Store where
  departments : List Department
  employees : List Employee
  deriving Repr, DecidableEq

/-- A row of `SELECT e.*, d.name AS department_name,
d.description AS department_description FROM employees e LEFT JOIN
departments d ON e.department_id = d.id`. -/
structure EmpRow where
  emp : Employee
  department_name : Option String
  department_description : Option String
  deriving Repr, DecidableEq

/-- A row of the narrower join `SELECT e.*, d.name AS department_name ...`
used by the single-employee delete pre-check. -/
structure EmpRowName where
  emp : Employee
  department_name : Option String
  deriving Repr, DecidableEq

/-- The department row the LEFT JOIN associates to an employee. -/
def joinDept (st : Store) (e : Employee) : Option Department :=
  e.department_id.bind fun n => st.departments.find? fun d => d.id == n

def joinedRow (st : Store) (e : Employee) : EmpRow :=
  { emp := e
    department_name := (joinDept st e).map (·.name)
    department_description := (joinDept st e).bind (·.description) }

def joinedRowName (st : Store) (e : Employee) : EmpRowName :=
  { emp := e, department_name := (joinDept st e).map (·.name) }

/-- The full LEFT JOIN relation the employees list query ranges over. -/
def joinedRows (st : Store) : List EmpRow :=
  st.employees.map (joinedRow st)

/-- SQL `employees.department_id = ?` against a coerced numeric parameter
(SQL NULL never equals anything). -/
def empRefsDept (e : Employee) (q : Frac) : Bool :=
  match e.department_id with
  | some n => Frac.eqv (Frac.ofNat n) q
  | none => false

/-- SQL `employees.id = ?` against a coerced numeric parameter. -/
def empIdIs (e : Employee) (q : Frac) : Bool :=
  Frac.eqv (Frac.ofNat e.id) q

/-- SQL `departments.id = ?` against a coerced numeric parameter. -/
def deptIdIs (d : Department) (q : Frac) : Bool :=
  Frac.eqv (Frac.ofNat d.id) q

/-! ## SQL statements issued by the handlers -/

inductive Stmt where
  | selectDeptByName (name : String)
  | selectDeptById (idParam : Frac)
  | countEmployeesByDept (idParam : Frac)
  | insertDept (name : String) (descr : Option String)
  | updateDept (idParam : Frac) (name : Option String) (descr : Option String)
  | deleteDept (idParam : Frac)
  | selectEmployeeJoinedById (idParam : Frac)
  | deleteEmployeeById (idParam : Frac)
  | deleteEmployeesIn (idParams : List Frac)
  deriving Repr, DecidableEq

/-- Recogniser: is the statement the department-name uniqueness pre-check? -/
def Stmt.isSelectDeptByName : Stmt → Bool
  | .selectDeptByName _ => true
  | _ => false

/-- Recogniser: is the statement a department delete? -/
def Stmt.isDeleteDept : Stmt → Bool
  | .deleteDept _ => true
  | _ => false

/-- Recogniser: is the statement a department insert? -/
def Stmt.isInsertDept : Stmt → Bool
  | .insertDept _ _ => true
  | _ => false

/-! ## Departments router

Shallow embedding of the second departments router in
`src/unnamed/part_000` (lines 490-690), the variant whose schema has a
`description` column.  Each handler returns the HTTP status, the envelope
fields, the SQL statements it issued in order, and the post-state. -/

structure DeptResult where
  status : Nat
  success : Bool
  error : Option String
  message : Option String
  data : Option Department
  stmts : List Stmt
  store : Store
  deriving Repr, DecidableEq

inductive DbErr where
  | dupEntry
  | badNull
  deriving Repr, DecidableEq

/-- The `AUTO_INCREMENT` id for a fresh department row (modelled as one more
than the largest id present). -/
def nextDeptId (st : Store) : Nat :=
  (st.departments.map (·.id)).foldr max 0 + 1

/-- The store executing `INSERT INTO departments (name, description)
VALUES (?, ?)`: the UNIQUE constraint on `name` rejects a duplicate. -/
def applyInsertDept (st : Store) (name : String) (descr : Option String) :
    Except DbErr (Store × Nat) :=
  if st.departments.any (fun d => mysqlStrEq d.name name) then .error .dupEntry
  else
    let newId := nextDeptId st
    .ok ({ st with departments :=
            st.departments ++ [{ id := newId, name := name, description := descr }] },
         newId)

/-- The store executing `UPDATE departments SET name = ?, description = ?
WHERE id = ?`: NULL `name` violates NOT NULL, and a `name` already held by
a different row violates the UNIQUE constraint. -/
def applyUpdateDept (st : Store) (qid : Frac) (name : Option String)
    (descr : Option String) : Except DbErr Store :=
  match name with
  | none => .error .badNull
  | some n =>
      if st.departments.any (fun d => !(deptIdIs d qid) && mysqlStrEq d.name n) then
        .error .dupEntry
      else
        .ok { st with departments :=
                st.departments.map fun d =>
                  if deptIdIs d qid then { d with name := n, description := descr } else d }

/-- Route `GET /api/departments/:id` (lines 522-549).  The raw path parameter is
bound straight into the query — there is no numeric-id validation. -/
def getDepartmentById (st : Store) (idStr : String) : DeptResult :=
  let qid := mysqlStrToNum idStr
  let rows := st.departments.filter fun d => deptIdIs d qid
  match rows with
  | [] =>
      { status := 404, success := false, error := some "Department not found"
        message := none, data := none, stmts := [.selectDeptById qid], store := st }
  | r :: _ =>
      { status := 200, success := true, error := none
        message := none, data := some r, stmts := [.selectDeptById qid], store := st }

/-- Route `POST /api/departments` (lines 552-600): requires a truthy `name`,
pre-checks name uniqueness with a read, then inserts and re-fetches. -/
def createDepartment (st : Store) (name descr : BodyVal) : DeptResult :=
  match name with
  | .str s =>
      if s = "" then
        { status := 400, success := false, error := some "Department name is required"
          message := none, data := none, stmts := [], store := st }
      else
        let pre := Stmt.selectDeptByName s
        let existing := st.departments.filter fun d => mysqlStrEq d.name s
        if existing.length > 0 then
          { status := 400, success := false, error := some "Department already exists"
            message := none, data := none, stmts := [pre], store := st }
        else
          match bvToSqlParam descr with
          | none =>
              -- `description` destructured as `undefined`: mysql2 rejects the
              -- bind parameter client-side before any INSERT reaches the store.
              { status := 500, success := false, error := some "Failed to create department"
                message := none, data := none, stmts := [pre], store := st }
          | some dv =>
              match applyInsertDept st s dv with
              | .error _ =>
                  { status := 500, success := false, error := some "Failed to create department"
                    message := none, data := none, stmts := [pre, .insertDept s dv], store := st }
              | .ok (st', newId) =>
                  { status := 201, success := true, error := none
                    message := some "Department created successfully"
                    data := st'.departments.find? (fun d => d.id == newId)
                    stmts := [pre, .insertDept s dv, .selectDeptById (Frac.ofNat newId)]
                    store := st' }
  | _ =>
      { status := 400, success := false, error := some "Department name is required"
        message := none, data := none, stmts := [], store := st }

/-- Route `PUT /api/departments/:id` (lines 603-643): checks the target exists,
then updates `name` and `description` directly — no name-uniqueness
pre-check is issued. -/
def updateDepartment (st : Store) (idStr : String) (name descr : BodyVal) : DeptResult :=
  let qid := mysqlStrToNum idStr
  let sel := Stmt.selectDeptById qid
  if st.departments.any (fun d => deptIdIs d qid) then
    match bvToSqlParam name, bvToSqlParam descr with
    | some nv, some dv =>
        match applyUpdateDept st qid nv dv with
        | .error _ =>
            { status := 500, success := false, error := some "Failed to update department"
              message := none, data := none, stmts := [sel, .updateDept qid nv dv], store := st }
        | .ok st' =>
            { status := 200, success := true, error := none
              message := some "Department updated successfully"
              data := st'.departments.find? (fun d => deptIdIs d qid)
              stmts := [sel, .updateDept qid nv dv, .selectDeptById qid]
              store := st' }
    | _, _ =>
        -- an `undefined` body field: mysql2 rejects the bind parameter
        -- client-side, the catch block answers 500, no UPDATE is issued.
        { status := 500, success := false, error := some "Failed to update department"
          message := none, data := none, stmts := [sel], store := st }
  else
    { status := 404, success := false, error := some "Department not found"
      message := none, data := none, stmts := [sel], store := st }

/-- Route `DELETE /api/departments/:id` (lines 646-688): 404 when absent, 400
when any employee still references the department (the DELETE is then
never issued), otherwise delete. -/
def deleteDepartment (st : Store) (idStr : String) : DeptResult :=
  let qid := mysqlStrToNum idStr
  let sel := Stmt.selectDeptById qid
  if st.departments.any (fun d => deptIdIs d qid) then
    let refCount := (st.employees.filter fun e => empRefsDept e qid).length
    if refCount > 0 then
      { status := 400, success := false
        error := some "Cannot delete department that is assigned to employees"
        message := none, data := none
        stmts := [sel, .countEmployeesByDept qid], store := st }
    else
      { status := 200, success := true, error := none
        message := some "Department deleted successfully", data := none
        stmts := [sel, .countEmployeesByDept qid, .deleteDept qid]
        store := { st with departments := st.departments.filter fun d => !(deptIdIs d qid) } }
  else
    { status := 404, success := false, error := some "Department not found"
      message := none, data := none, stmts := [sel], store := st }

/-! ## Employees router: list query (`src/routes/employees.js` lines 41-172) -/

/-- The query parameters of `GET /api/employees`, after the destructuring
defaults (`page = 1`, `limit = 10`, `sortBy = "created_at"`,
`sortOrder = "DESC"`).  `page` and `limit` arrive as numeric query strings;
they are modelled by their numeric values. -/
structure ListQuery where
  search : Option String
  departmentId : Option Nat
  status : Option String
  page : Nat
  limit : Nat
  sortBy : String
  sortOrder : String
  deriving Repr, DecidableEq

/-- The free-text search disjunction over the six `LIKE` columns
(a NULL `d.name` matches nothing). -/
def searchMatch (s : String) (e : Employee) (dname : Option String) : Bool :=
  mysqlLikeContains e.employee_id s || mysqlLikeContains e.first_name s ||
  mysqlLikeContains e.last_name s || mysqlLikeContains e.email s ||
  mysqlLikeContains e.position s ||
  (match dname with
   | some dn => mysqlLikeContains dn s
   | none => false)

/-- The WHERE clause the list query builds (lines 57-93): each filter is
appended only when its query parameter is truthy. -/
def listWhere (q : ListQuery) (e : Employee) (dname : Option String) : Bool :=
  (match q.search with
   | some s => if s == "" then true else searchMatch s e dname
   | none => true) &&
  (match q.departmentId with
   | some n => empRefsDept e (Frac.ofNat n)
   | none => true) &&
  (match q.status with
   | some s => if s == "" then true else mysqlStrEq e.status s
   | none => true)

/-- The WHERE clause the parallel count query builds (lines 119-150); the
code constructs it a second time with the same three conditions. -/
def countWhere (q : ListQuery) (e : Employee) (dname : Option String) : Bool :=
  (match q.search with
   | some s => if s == "" then true else searchMatch s e dname
   | none => true) &&
  (match q.departmentId with
   | some n => empRefsDept e (Frac.ofNat n)
   | none => true) &&
  (match q.status with
   | some s => if s == "" then true else mysqlStrEq e.status s
   | none => true)

/-- The allow-list of sortable columns (lines 96-105). -/
def validSortColumns : List String :=
  ["id", "employee_id", "first_name", "last_name", "department_name",
   "salary", "hire_date", "created_at"]

/-- The allowed sort orders (line 106). -/
def validSortOrders : List String :=
  ["ASC", "DESC"]

/-- The ORDER BY clause selection (lines 108-117): an allow-listed column
and a valid order are honoured (with `department_name` mapped to
`d.name`); anything else falls back to `e.created_at DESC`. -/
def resolveSort (sortBy sortOrder : String) : String × String :=
  if sortBy ∈ validSortColumns ∧ strToUpper sortOrder ∈ validSortOrders then
    (if sortBy == "department_name" then "d.name" else "e." ++ sortBy, strToUpper sortOrder)
  else
    ("e.created_at", "DESC")

/-- Case-insensitive lexicographic order on character lists. -/
def charListLe : List Char → List Char → Bool
  | [], _ => true
  | _ :: _, [] => false
  | a :: as, b :: bs => if a = b then charListLe as bs else decide (a < b)

/-- MySQL string ordering under the default case-insensitive collation. -/
def strLeCI (a b : String) : Bool :=
  charListLe (strToLower a).toList (strToLower b).toList

/-- Ordering on a nullable string column: NULLs sort first ascending. -/
def optStrLe : Option String → Option String → Bool
  | none, _ => true
  | some _, none => false
  | some a, some b => strLeCI a b

/-- Ascending comparison keyed by the resolved ORDER BY column. -/
def rowLeAsc (col : String) (x y : EmpRow) : Bool :=
  if col == "e.id" then decide (x.emp.id ≤ y.emp.id)
  else if col == "e.employee_id" then strLeCI x.emp.employee_id y.emp.employee_id
  else if col == "e.first_name" then strLeCI x.emp.first_name y.emp.first_name
  else if col == "e.last_name" then strLeCI x.emp.last_name y.emp.last_name
  else if col == "d.name" then optStrLe x.department_name y.department_name
  else if col == "e.salary" then decide (x.emp.salary ≤ y.emp.salary)
  else if col == "e.hire_date" then strLeCI x.emp.hire_date y.emp.hire_date
  else decide (x.emp.created_at ≤ y.emp.created_at)

/-- The comparison the ORDER BY clause induces. -/
def rowLe (co : String × String) (x y : EmpRow) : Bool :=
  if co.2 == "DESC" then rowLeAsc co.1 y x else rowLeAsc co.1 x y

/-- Insert into a sorted list. -/
def insertSorted (le : α → α → Bool) (x : α) : List α → List α
  | [] => [x]
  | y :: ys => if le x y then x :: y :: ys else y :: insertSorted le x ys

/-- Insertion sort (the relational ORDER BY, made executable). -/
def sortByLe (le : α → α → Bool) : List α → List α
  | [] => []
  | x :: xs => insertSorted le x (sortByLe le xs)

structure Pagination where
  page : Nat
  limit : Nat
  total : Nat
  pages : Nat
  deriving Repr, DecidableEq

structure ListResult where
  success : Bool
  data : List EmpRow
  pagination : Pagination
  deriving Repr, DecidableEq

/-- JavaScript `Math.ceil(total / limit)` on naturals (a zero `limit`, which would
give `Infinity` in JavaScript, is mapped to 0; no claim exercises it). -/
def pagesOf (total limit : Nat) : Nat :=
  if limit = 0 then 0 else (total + limit - 1) / limit

/-- The rows the list query returns: filter, ORDER BY, then
`LIMIT ? OFFSET ?` with `offset = (page - 1) * limit` (lines 152-157). -/
def listData (st : Store) (q : ListQuery) : List EmpRow :=
  ((sortByLe (rowLe (resolveSort q.sortBy q.sortOrder))
      ((joinedRows st).filter fun r => listWhere q r.emp r.department_name)).drop
    ((q.page - 1) * q.limit)).take q.limit

/-- The total the count query returns (lines 158-159). -/
def listTotal (st : Store) (q : ListQuery) : Nat :=
  ((joinedRows st).filter fun r => countWhere q r.emp r.department_name).length

/-- Route `GET /api/employees`: the response envelope (lines 161-170). -/
def listEmployees (st : Store) (q : ListQuery) : ListResult :=
  { success := true
    data := listData st q
    pagination :=
      { page := q.page, limit := q.limit, total := listTotal st q
        pages := pagesOf (listTotal st q) q.limit } }

/-! ## Employees router: get, delete, bulk delete -/

structure EmpGetResult where
  status : Nat
  success : Bool
  error : Option String
  data : Option EmpRow
  stmts : List Stmt
  deriving Repr, DecidableEq

/-- The id guard `!id || isNaN(id)` shared by the employee :id routes. -/
def validIdStr (idStr : String) : Bool :=
  !(idStr == "") && (strToNumber idStr).isSome

/-- Route `GET /api/employees/:id` (lines 174-213): numeric-id validation
answers 400 before any query; otherwise the joined row or 404. -/
def getEmployeeById (st : Store) (idStr : String) : EmpGetResult :=
  if !(validIdStr idStr) then
    { status := 400, success := false, error := some "Invalid employee ID"
      data := none, stmts := [] }
  else
    let qid := mysqlStrToNum idStr
    let rows := st.employees.filter fun e => empIdIs e qid
    match rows with
    | [] =>
        { status := 404, success := false, error := some "Employee not found"
          data := none, stmts := [.selectEmployeeJoinedById qid] }
    | e :: _ =>
        { status := 200, success := true, error := none
          data := some (joinedRow st e), stmts := [.selectEmployeeJoinedById qid] }

structure EmpDeleteResult where
  status : Nat
  success : Bool
  error : Option String
  message : Option String
  data : Option EmpRowName
  stmts : List Stmt
  store : Store
  deriving Repr, DecidableEq

/-- Route `DELETE /api/employees/:id` (lines 434-476): numeric-id guard, then a
pre-check fetching the row joined with its department name; on success the
row is deleted and the pre-fetched row is returned as `data`. -/
def deleteEmployeeById (st : Store) (idStr : String) : EmpDeleteResult :=
  if !(validIdStr idStr) then
    { status := 400, success := false, error := some "Invalid employee ID"
      message := none, data := none, stmts := [], store := st }
  else
    let qid := mysqlStrToNum idStr
    let pre := Stmt.selectEmployeeJoinedById qid
    let rows := st.employees.filter fun e => empIdIs e qid
    match rows with
    | [] =>
        { status := 404, success := false, error := some "Employee not found"
          message := none, data := none, stmts := [pre], store := st }
    | e :: _ =>
        { status := 200, success := true, error := none
          message := some "Employee deleted successfully"
          data := some (joinedRowName st e)
          stmts := [pre, .deleteEmployeeById qid]
          store := { st with employees := st.employees.filter fun x => !(empIdIs x qid) } }

structure BulkDeleteResult where
  status : Nat
  success : Bool
  error : Option String
  message : Option String
  deletedCount : Option Nat
  stmts : List Stmt
  store : Store
  deriving Repr, DecidableEq

/-- The bulk-delete filter `ids.filter((id) => !isNaN(id) && id > 0)`
(line 492): keeps every entry whose JavaScript numeric coercion is not NaN
and is greater than zero. -/
def bulkKeep (v : JsValue) : Bool :=
  match jsToNumber v with
  | none => false
  | some q => Frac.blt (Frac.ofInt 0) q

/-- Stated from the claim's words, for comparison with `bulkKeep`: an
entry that is a valid positive-integer identifier (numeric, integral, and
greater than zero). -/
def isPositiveInteger (v : JsValue) : Bool :=
  match jsToNumber v with
  | none => false
  | some q => Frac.blt (Frac.ofInt 0) q && Frac.isInt q

/-- Does `DELETE FROM employees WHERE id IN (...)` touch this row: its id
equals one of the (coerced) kept parameters. -/
def bulkMatches (nums : List Frac) (e : Employee) : Bool :=
  nums.any fun q => Frac.eqv (Frac.ofNat e.id) q

/-- Route `DELETE /api/employees` (lines 478-513): `ids` must be a non-empty
array; entries are filtered by `bulkKeep`; the kept ids are deleted in a
single statement and `deletedCount` reports the affected rows.  (`none`
for `ids` covers an absent or non-array body field.) -/
def bulkDeleteEmployees (st : Store) (ids : Option (List JsValue)) : BulkDeleteResult :=
  match ids with
  | none =>
      { status := 400, success := false, error := some "Employee IDs are required"
        message := none, deletedCount := none, stmts := [], store := st }
  | some l =>
      if l.isEmpty then
        { status := 400, success := false, error := some "Employee IDs are required"
          message := none, deletedCount := none, stmts := [], store := st }
      else
        let valid := l.filter bulkKeep
        if valid.isEmpty then
          { status := 400, success := false, error := some "Valid employee IDs are required"
            message := none, deletedCount := none, stmts := [], store := st }
        else
          let nums := valid.filterMap jsToNumber
          let affected := (st.employees.filter (bulkMatches nums)).length
          { status := 200, success := true, error := none
            message := some "employees deleted successfully"
            deletedCount := some affected
            stmts := [.deleteEmployeesIn nums]
            store := { st with employees := st.employees.filter fun e => !(bulkMatches nums e) } }

/-! ## Aggregation endpoint (`src/app.js` lines 148-193) -/

/-- The rows `WHERE status = 'active'` selects. -/
def activeEmployees (st : Store) : List Employee :=
  st.employees.filter fun e => mysqlStrEq e.status "active"

/-- SQL `AVG` over a bag of cent-valued `DECIMAL(10,2)` salaries: NULL on
the empty bag, otherwise the exact mean `(Σ cents) / (100 · n)`.  (MySQL
truncates the printed average at scale 6; no claim distinguishes that.) -/
def sqlAvgCents (xs : List Int) : Option Frac :=
  if xs.isEmpty then none else some ⟨xs.sum, 100 * xs.length⟩

structure StatsData where
  totalEmployees : Nat
  activeCount : Nat
  averageSalary : ℤ
  departmentBreakdown : List (String × Nat)
  recentEmployees : List EmpRowName
  deriving Repr, DecidableEq

/-- Route `GET /api/stats`: the five independent queries and the response body.
`averageSalary` is `Math.round(avg || 0)` where `avg` is the SQL average
of `salary` over the active rows. -/
def stats (st : Store) : StatsData :=
  { totalEmployees := st.employees.length
    activeCount := (activeEmployees st).length
    averageSalary := jsRound (jsOrZero (sqlAvgCents ((activeEmployees st).map (·.salary))))
    departmentBreakdown :=
      sortByLe (fun a b => decide (b.2 ≤ a.2))
        (st.departments.map fun d =>
          (d.name, (st.employees.filter fun e => e.department_id == some d.id).length))
    recentEmployees :=
      (sortByLe (fun a b => decide (b.emp.created_at ≤ a.emp.created_at))
        (st.employees.map (joinedRowName st))).take 5 }

/-- The arithmetic mean of `salary` (as an exact rational, a
`DECIMAL(10,2)` in cents being `cents / 100`) over the active rows. -/
def meanActiveSalary (st : Store) : ℚ :=
  (((activeEmployees st).map fun e => (e.salary : ℚ) / 100).sum) /
    ((activeEmployees st).length : ℚ)

/-! ## Terminal error handler (`src/app.js` lines 206-231) -/

/-- The error object reaching the terminal handler: an optional driver
error `code`, an optional HTTP `status` set by upstream middleware, and
the error message. -/
structure ErrObj where
  code : Option String
  status : Option Nat
  message : String
  deriving Repr, DecidableEq

/-- The two body shapes the terminal handler produces: the JSON envelope
`{success: false, error}` for API paths, the simple message otherwise. -/
inductive ErrBody where
  | jsonEnv (error : String)
  | simple (message : String)
  deriving Repr, DecidableEq

/-- The terminal error handler: on `/api*` paths, `ER_DUP_ENTRY` maps to
400, `ER_NO_SUCH_TABLE` to 500, anything else to the error's own status or
500, all as the JSON envelope; other paths get the simple message. -/
def errorHandler (err : ErrObj) (originalUrl : String) : Nat × ErrBody :=
  if startsWithApi originalUrl then
    if err.code == some "ER_DUP_ENTRY" then
      (400, .jsonEnv "Duplicate entry detected")
    else if err.code == some "ER_NO_SUCH_TABLE" then
      (500, .jsonEnv "Database table not found")
    else
      (jsOrNat err.status 500,
       .jsonEnv (if err.message == "" then "Internal server error" else err.message))
  else
    (jsOrNat err.status 500, .simple "404 Page Not Found..!")

/-! ## Persistence gateway (`src/unnamed/part_000` lines 207-220)

The pool is reduced to the one observable the claims need: whether its
connections can reach the database.  `initializeDatabase` (lines 22-61)
throws when the database is unreachable; `getPool` caches the pool and, on
an initialization failure, falls back to `mysql.createPool(dbConfig)` — a
pool object whose later connection attempts fail — instead of propagating
the exception. -/

structure Pool where
  reachable : Bool
  deriving Repr, DecidableEq

/-- Errors a query through the gateway could surface: a database error
(connection refused and friends), or — never produced by this code — the
absence of any pool object to run the query on. -/
inductive QueryErr where
  | dbError (code : String)
  | noPool
  deriving Repr, DecidableEq

/-- Function `initializeDatabase`: succeeds with a connected pool when the database
is up, throws otherwise. -/
def initializeDatabase (dbUp : Bool) : Except String Pool :=
  if dbUp then .ok { reachable := true } else .error "Database initialization failed"

/-- Function `getPool` observed through its `try`/`catch`: returns the cached pool,
or initializes one; a failed initialization is caught and a degraded pool
(whose connections will fail, the database being down) is cached and
returned.  An exception escaping would appear as `.error`; the catch
clause means none does.  Returns the pool and the new cache. -/
def getPool (cached : Option Pool) (dbUp : Bool) :
    Except String (Pool × Option Pool) :=
  match cached with
  | some p => .ok (p, some p)
  | none =>
      match initializeDatabase dbUp with
      | .ok p => .ok (p, some p)
      | .error _ => .ok ({ reachable := false }, some { reachable := false })

/-- The pool `getPool` hands back (total by the catch clause). -/
def getPoolResult (cached : Option Pool) (dbUp : Bool) : Pool :=
  match getPool cached dbUp with
  | .ok (p, _) => p
  | .error _ => { reachable := false }

/-- A query issued through a pool object: rows on a reachable pool, the
driver's connection failure on a degraded one. -/
def poolExecute (p : Pool) (sql : String) : Except QueryErr (List String) :=
  if p.reachable then .ok [sql] else .error (.dbError "ECONNREFUSED")

/-! ## Sample data for witnesses -/

def hrDept : Department :=
  { id := 1, name := "Human Resources", description := some "Manages employee relations" }

def itDept : Department :=
  { id := 2, name := "Information Technology", description := none }

def empJuan : Employee :=
  { id := 1, employee_id := "EMP001", first_name := "Juan", last_name := "Dela Cruz"
    email := "juan@example.com", phone := none, department_id := some 1
    position := "HR Manager", salary := 7500000, hire_date := "2023-01-15"
    status := "active", created_at := 10 }

def empMaria : Employee :=
  { id := 2, employee_id := "EMP002", first_name := "Maria", last_name := "Santos"
    email := "maria@example.com", phone := none, department_id := some 2
    position := "Developer", salary := 8500000, hire_date := "2023-02-01"
    status := "active", created_at := 20 }

def empJose : Employee :=
  { id := 3, employee_id := "EMP003", first_name := "Jose", last_name := "Rizal"
    email := "jose@example.com", phone := none, department_id := none
    position := "Analyst", salary := 6500000, hire_date := "2023-03-10"
    status := "inactive", created_at := 30 }

def sampleStore : Store :=
  { departments := [hrDept, itDept], employees := [empJuan, empMaria, empJose] }

def emptyStore : Store :=
  { departments := [], employees := [] }

/-! ## Helper lemmas -/

/-- The list query's WHERE clause and the count query's WHERE clause are
the same predicate: the route builds each of the three conditions twice,
identically. -/
theorem countWhere_eq_listWhere : countWhere = listWhere :=
  rfl

/-- Function `jsRound` is `⌊· + 1/2⌋` of the fraction's rational value, for a
positive denominator. -/
theorem jsRound_eq_floor (q : Frac) (hd : 0 < q.den) :
    jsRound q = ⌊q.toRat + 1 / 2⌋ := by
  have hd0 : ((q.den : ℚ)) ≠ 0 := by positivity
  have hx : q.toRat + 1 / 2 = ((2 * q.num + (q.den : ℤ) : ℤ) : ℚ) / ((2 * q.den : ℕ) : ℚ) := by
    rw [Frac.toRat]
    push_cast
    field_simp
    ring
  rw [hx, Rat.floor_intCast_div_natCast, jsRound]
  have : ((2 * q.den : ℕ) : ℤ) = 2 * (q.den : ℤ) := by push_cast; ring
  rw [this]
  rfl

/-- A rounded value is within a half of the value rounded. -/
theorem floor_half_abs (x : ℚ) : |((⌊x + 1 / 2⌋ : ℤ) : ℚ) - x| ≤ 1 / 2 := by
  have h1 := Int.floor_le (x + 1 / 2)
  have h2 := Int.sub_one_lt_floor (x + 1 / 2)
  rw [abs_le]
  constructor <;> linarith

/-! ## Claim theorems -/

/-- C2: for every employee list request with `page = 2` and `limit = 10`
and any combination of search/department/status filters, the response's
data array has at most 10 rows, and `pagination.total` counts all rows
matching the list query's own predicate — the count query's predicate
being identical to it. -/
theorem claim2_list_pagination (st : Store) (q : ListQuery)
    (hp : q.page = 2) (hl : q.limit = 10) :
    (listEmployees st q).data.length ≤ 10 ∧
    (listEmployees st q).pagination.total =
      ((joinedRows st).filter fun r => listWhere q r.emp r.department_name).length := by
  constructor
  · have h : (listData st q).length ≤ q.limit := by
      rw [listData]
      exact List.length_take_le _ _
    calc (listEmployees st q).data.length = (listData st q).length := rfl
      _ ≤ q.limit := h
      _ = 10 := hl
  · show listTotal st q = _
    rw [listTotal, countWhere_eq_listWhere]

/-- C2 witness: the theorem at a concrete store and query. -/
theorem claim2_list_pagination_witness :
    (listEmployees sampleStore
        { search := none, departmentId := none, status := some "active",
          page := 2, limit := 10, sortBy := "created_at", sortOrder := "DESC" }).data.length ≤ 10 ∧
    (listEmployees sampleStore
        { search := none, departmentId := none, status := some "active",
          page := 2, limit := 10, sortBy := "created_at", sortOrder := "DESC" }).pagination.total =
      ((joinedRows sampleStore).filter fun r =>
        listWhere
          { search := none, departmentId := none, status := some "active",
            page := 2, limit := 10, sortBy := "created_at", sortOrder := "DESC" }
          r.emp r.department_name).length :=
  claim2_list_pagination sampleStore _ rfl rfl

/-- C6: for every employee list request whose `sortBy` is not in the
allow-list of sortable columns, or whose `sortOrder` is not ASC/DESC
case-insensitively, the resolved ORDER BY clause is the default
`e.created_at DESC` and the request succeeds. -/
theorem claim6_sort_fallback (st : Store) (q : ListQuery)
    (h : q.sortBy ∉ validSortColumns ∨ strToUpper q.sortOrder ∉ validSortOrders) :
    resolveSort q.sortBy q.sortOrder = ("e.created_at", "DESC") ∧
    (listEmployees st q).success = true := by
  refine ⟨?_, rfl⟩
  rw [resolveSort, if_neg]
  rintro ⟨h1, h2⟩
  rcases h with h | h
  · exact h h1
  · exact h h2

/-- Sum of cent-valued salaries, cast to ℚ and scaled. -/
theorem sum_salary_cast (l : List Employee) :
    (l.map fun e => (e.salary : ℚ) / 100).sum = (((l.map (·.salary)).sum : ℤ) : ℚ) / 100 := by
  induction l with
  | nil => simp
  | cons a t ih =>
      simp only [List.map_cons, List.sum_cons, ih]
      push_cast
      ring

/-- C3: `/api/stats` reports 0 as the average salary when no active
employee rows exist, and otherwise the arithmetic mean of `salary` over
exactly the active rows, rounded to the nearest integer (`⌊mean + 1/2⌋`,
which is within 1/2 of the mean). -/
theorem claim3_stats_average_salary (st : Store) :
    ((activeEmployees st).isEmpty = true → (stats st).averageSalary = 0) ∧
    ((activeEmployees st).isEmpty = false →
      (stats st).averageSalary = ⌊meanActiveSalary st + 1 / 2⌋ ∧
      |(((stats st).averageSalary : ℤ) : ℚ) - meanActiveSalary st| ≤ 1 / 2) := by
  constructor
  · intro h
    have hA : activeEmployees st = [] := List.isEmpty_iff.mp h
    simp only [stats, hA, List.map_nil]
    decide
  · intro h
    have hA : activeEmployees st ≠ [] := by
      intro hc
      rw [hc] at h
      simp at h
    have hn : 0 < (activeEmployees st).length := List.length_pos.mpr hA
    have hm : ((activeEmployees st).map (·.salary)).isEmpty = false := by
      rw [List.isEmpty_eq_false]
      simpa using hA
    have h1 : (stats st).averageSalary =
        jsRound ⟨((activeEmployees st).map (·.salary)).sum, 100 * (activeEmployees st).length⟩ := by
      simp only [stats, sqlAvgCents, List.length_map, hm]
      rfl
    have hden : 0 < 100 * (activeEmployees st).length := by positivity
    have h2 : Frac.toRat
        ⟨((activeEmployees st).map (·.salary)).sum, 100 * (activeEmployees st).length⟩ =
        meanActiveSalary st := by
      rw [Frac.toRat, meanActiveSalary, sum_salary_cast]
      have hq : ((activeEmployees st).length : ℚ) ≠ 0 := by positivity
      push_cast
      field_simp
    have h3 : (stats st).averageSalary = ⌊meanActiveSalary st + 1 / 2⌋ := by
      rw [h1, jsRound_eq_floor _ hden, h2]
    refine ⟨h3, ?_⟩
    rw [h3]
    exact floor_half_abs (meanActiveSalary st)

/-- C3 witness: the theorem at a concrete store with two active rows
(mean 80000) and at the empty store. -/
theorem claim3_stats_average_salary_witness :
    (stats sampleStore).averageSalary = ⌊meanActiveSalary sampleStore + 1 / 2⌋ ∧
    (stats emptyStore).averageSalary = 0 :=
  ⟨((claim3_stats_average_salary sampleStore).2 (by decide)).1,
   (claim3_stats_average_salary emptyStore).1 (by decide)⟩

/-- C4: a department delete whose target exists and is referenced by at
least one employee answers 400, leaves the store unchanged, and never
issues the DELETE statement (only the two pre-check reads run). -/
theorem claim4_delete_department_blocked (st : Store) (idStr : String)
    (hdept : st.departments.any (fun d => deptIdIs d (mysqlStrToNum idStr)) = true)
    (hemp : st.employees.any (fun e => empRefsDept e (mysqlStrToNum idStr)) = true) :
    (deleteDepartment st idStr).status = 400 ∧
    (deleteDepartment st idStr).success = false ∧
    (deleteDepartment st idStr).store = st ∧
    (deleteDepartment st idStr).stmts =
      [.selectDeptById (mysqlStrToNum idStr), .countEmployeesByDept (mysqlStrToNum idStr)] := by
  have hcnt : (st.employees.filter fun e => empRefsDept e (mysqlStrToNum idStr)).length > 0 := by
    rcases List.any_eq_true.mp hemp with ⟨e, he, hpe⟩
    exact List.length_pos.mpr
      (List.ne_nil_of_mem (List.mem_filter.mpr ⟨he, hpe⟩))
  have key : deleteDepartment st idStr =
      { status := 400, success := false
        error := some "Cannot delete department that is assigned to employees"
        message := none, data := none
        stmts := [.selectDeptById (mysqlStrToNum idStr),
                  .countEmployeesByDept (mysqlStrToNum idStr)]
        store := st } := by
    unfold deleteDepartment
    rw [if_pos hdept, if_pos hcnt]
  rw [key]
  exact ⟨rfl, rfl, rfl, rfl⟩

/-- C4 witness: deleting department 1, referenced by one employee, in a
concrete store. -/
theorem claim4_delete_department_blocked_witness :
    (deleteDepartment sampleStore "1").status = 400 ∧
    (deleteDepartment sampleStore "1").success = false ∧
    (deleteDepartment sampleStore "1").store = sampleStore ∧
    (deleteDepartment sampleStore "1").stmts =
      [.selectDeptById (mysqlStrToNum "1"), .countEmployeesByDept (mysqlStrToNum "1")] :=
  claim4_delete_department_blocked sampleStore "1" (by decide) (by decide)

/-- C10: a single employee delete whose numeric id matches a row answers
200 with `data` equal to that row as fetched by the pre-check (joined with
its pre-deletion `department_name`), and removes exactly the matching rows
from the store. -/
theorem claim10_delete_returns_row (st : Store) (idStr : String) (e : Employee)
    (hv : validIdStr idStr = true)
    (he : (st.employees.filter fun x => empIdIs x (mysqlStrToNum idStr)).head? = some e) :
    (deleteEmployeeById st idStr).status = 200 ∧
    (deleteEmployeeById st idStr).data = some (joinedRowName st e) ∧
    (deleteEmployeeById st idStr).store.employees =
      st.employees.filter fun x => !(empIdIs x (mysqlStrToNum idStr)) := by
  have hrows : ∃ t, (st.employees.filter fun x => empIdIs x (mysqlStrToNum idStr)) = e :: t := by
    cases hr : st.employees.filter fun x => empIdIs x (mysqlStrToNum idStr) with
    | nil => rw [hr] at he; simp at he
    | cons a t =>
        rw [hr] at he
        simp only [List.head?_cons, Option.some.injEq] at he
        exact ⟨t, by rw [he]⟩
  obtain ⟨t, ht⟩ := hrows
  unfold deleteEmployeeById
  rw [hv]
  simp only [Bool.not_true, Bool.false_eq_true, if_false, ht]
  refine ⟨?_, ?_, ?_⟩ <;> trivial

/-- C10 witness: deleting employee 1 in a concrete store returns the
pre-deletion joined row. -/
theorem claim10_delete_returns_row_witness :
    (deleteEmployeeById sampleStore "1").status = 200 ∧
    (deleteEmployeeById sampleStore "1").data = some (joinedRowName sampleStore empJuan) ∧
    (deleteEmployeeById sampleStore "1").store.employees =
      sampleStore.employees.filter fun x => !(empIdIs x (mysqlStrToNum "1")) :=
  claim10_delete_returns_row sampleStore "1" empJuan (by decide) (by decide)

/-- C7: the terminal error handler answers the JSON envelope on `/api`
paths — 400 for a duplicate-entry code, 500 for a missing-table code,
otherwise the error's own status (or 500) — and a simple message, not the
envelope, on every other path. -/
theorem claim7_error_handler (err : ErrObj) (url : String) :
    (startsWithApi url = true →
      (err.code = some "ER_DUP_ENTRY" →
        errorHandler err url = (400, .jsonEnv "Duplicate entry detected")) ∧
      (err.code = some "ER_NO_SUCH_TABLE" →
        errorHandler err url = (500, .jsonEnv "Database table not found")) ∧
      (err.code ≠ some "ER_DUP_ENTRY" → err.code ≠ some "ER_NO_SUCH_TABLE" →
        (errorHandler err url).1 = jsOrNat err.status 500 ∧
        ∃ m, (errorHandler err url).2 = .jsonEnv m)) ∧
    (startsWithApi url = false →
      errorHandler err url = (jsOrNat err.status 500, .simple "404 Page Not Found..!")) := by
  constructor
  · intro hapi
    refine ⟨fun h => ?_, fun h => ?_, fun h1 h2 => ?_⟩
    · simp [errorHandler, hapi, h]
    · simp [errorHandler, hapi, h]
    · have hb1 : (err.code == some "ER_DUP_ENTRY") = false := by
        simpa using h1
      have hb2 : (err.code == some "ER_NO_SUCH_TABLE") = false := by
        simpa using h2
      refine ⟨?_, ?_⟩ <;> simp [errorHandler, hapi, hb1, hb2]
  · intro hapi
    simp [errorHandler, hapi]

/-- C7 witness: the handler at concrete errors and urls, each hypothesis
discharged. -/
theorem claim7_error_handler_witness :
    errorHandler ⟨some "ER_DUP_ENTRY", none, "dup"⟩ "/api/departments" =
      (400, .jsonEnv "Duplicate entry detected") ∧
    errorHandler ⟨none, some 404, "Not Found"⟩ "/somewhere" =
      (jsOrNat (some 404) 500, .simple "404 Page Not Found..!") :=
  ⟨((claim7_error_handler ⟨some "ER_DUP_ENTRY", none, "dup"⟩ "/api/departments").1
      (by decide)).1 rfl,
   (claim7_error_handler ⟨none, some 404, "Not Found"⟩ "/somewhere").2 (by decide)⟩

/-- C8: `getPool` never propagates an initialization failure — it always
returns (and caches) a pool object — and a query through the degraded pool
the failure path yields fails with a database error, never with an error
about a missing pool. -/
theorem claim8_pool_degraded :
    (∀ cached dbUp, ∃ p c, getPool cached dbUp = .ok (p, some c)) ∧
    (getPoolResult none false).reachable = false ∧
    (∀ sql, poolExecute (getPoolResult none false) sql = .error (.dbError "ECONNREFUSED")) ∧
    (∀ p sql, poolExecute p sql ≠ .error .noPool) := by
  refine ⟨?_, rfl, fun sql => rfl, ?_⟩
  · intro cached dbUp
    cases cached with
    | some p => exact ⟨p, p, rfl⟩
    | none =>
        cases dbUp with
        | true => exact ⟨_, _, rfl⟩
        | false => exact ⟨_, _, rfl⟩
  · intro p sql
    rw [poolExecute]
    cases hr : p.reachable with
    | true => simp
    | false => simp

/-- Departments carrying a (case-insensitively) equal name exist exactly
when the pre-check read would find rows. -/
theorem exists_dup_iff_filter_pos (deps : List Department) (s : String) :
    (∃ d ∈ deps, mysqlStrEq d.name s = true) ↔
      0 < (deps.filter fun d => mysqlStrEq d.name s).length := by
  constructor
  · rintro ⟨d, hd, hp⟩
    exact List.length_pos.mpr (List.ne_nil_of_mem (List.mem_filter.mpr ⟨hd, hp⟩))
  · intro h
    obtain ⟨d, hd⟩ := List.exists_mem_of_ne_nil _ (List.length_pos.mp h)
    have := List.mem_filter.mp hd
    exact ⟨d, this.1, this.2⟩

/-- C1 counterexample: updating department 2's name to the name department
1 already holds issues the UPDATE with no preceding name-uniqueness read —
the store receives an update violating name uniqueness (and rejects it,
surfacing as a 500 rather than a pre-checked 400). -/
theorem claim1_counterexample :
    (updateDepartment sampleStore "2" (.str "Human Resources") .null).stmts =
      [.selectDeptById ⟨2, 1⟩, .updateDept ⟨2, 1⟩ (some "Human Resources") none] ∧
    (∃ d ∈ sampleStore.departments, mysqlStrEq d.name "Human Resources" = true ∧ d.id ≠ 2) ∧
    (updateDepartment sampleStore "2" (.str "Human Resources") .null).stmts.all
      (fun s => !(s.isSelectDeptByName)) = true ∧
    (updateDepartment sampleStore "2" (.str "Human Resources") .null).status = 500 := by
  decide

/-- C1 (amended): on every department create with a truthy name, the
name-uniqueness read is the first statement issued, a duplicate name
answers 400 with the store untouched and no insert, and an insert is only
ever issued when no duplicate existed; the department update handler, by
contrast, never issues a name-uniqueness pre-check. -/
theorem claim1_dept_name_uniqueness_amended :
    (∀ (st : Store) (s : String) (descr : BodyVal), s ≠ "" →
      (createDepartment st (.str s) descr).stmts.head? = some (.selectDeptByName s) ∧
      ((∃ d ∈ st.departments, mysqlStrEq d.name s = true) →
        (createDepartment st (.str s) descr).status = 400 ∧
        (createDepartment st (.str s) descr).store = st ∧
        (createDepartment st (.str s) descr).stmts = [.selectDeptByName s]) ∧
      (∀ dv, Stmt.insertDept s dv ∈ (createDepartment st (.str s) descr).stmts →
        ¬∃ d ∈ st.departments, mysqlStrEq d.name s = true)) ∧
    (∀ (st : Store) (idStr : String) (name descr : BodyVal),
      (updateDepartment st idStr name descr).stmts.all
        (fun x => !(x.isSelectDeptByName)) = true) := by
  constructor
  · intro st s descr hs
    by_cases hdup : ∃ d ∈ st.departments, mysqlStrEq d.name s = true
    · have hlen : (st.departments.filter fun d => mysqlStrEq d.name s).length > 0 :=
        (exists_dup_iff_filter_pos st.departments s).mp hdup
      have key : createDepartment st (.str s) descr =
          { status := 400, success := false, error := some "Department already exists"
            message := none, data := none, stmts := [.selectDeptByName s], store := st } := by
        simp only [createDepartment]
        rw [if_neg hs, if_pos hlen]
      rw [key]
      refine ⟨rfl, fun _ => ⟨rfl, rfl, rfl⟩, fun dv hmem => ?_⟩
      simp at hmem
    · have hlen : ¬((st.departments.filter fun d => mysqlStrEq d.name s).length > 0) := by
        intro h
        exact hdup ((exists_dup_iff_filter_pos st.departments s).mpr h)
      refine ⟨?_, fun h => absurd h hdup, fun dv _ => hdup⟩
      simp only [createDepartment]
      rw [if_neg hs, if_neg hlen]
      cases hbv : bvToSqlParam descr with
      | none => rfl
      | some dv =>
          dsimp only
          cases hins : applyInsertDept st s dv with
          | error e => rfl
          | ok r =>
              obtain ⟨st', nid⟩ := r
              rfl
  · intro st idStr name descr
    simp only [updateDepartment]
    split
    · split
      · split <;> simp [Stmt.isSelectDeptByName]
      · simp [Stmt.isSelectDeptByName]
    · simp [Stmt.isSelectDeptByName]

/-- C1 witness: creating a department whose name already exists, at a
concrete store, answers 400 with only the pre-check read issued. -/
theorem claim1_dept_name_uniqueness_amended_witness :
    (createDepartment sampleStore (.str "Human Resources") .null).status = 400 ∧
    (createDepartment sampleStore (.str "Human Resources") .null).store = sampleStore ∧
    (createDepartment sampleStore (.str "Human Resources") .null).stmts =
      [.selectDeptByName "Human Resources"] :=
  ((claim1_dept_name_uniqueness_amended.1 sampleStore "Human Resources" .null
      (by decide)).2.1) (by decide)

/-- C5 counterexample: with the mixed list `[1, 2.5]`, the route's filter
keeps `2.5` — not a positive integer — so it does not keep exactly the
valid positive-integer identifiers; the single DELETE statement receives
`2.5` among its parameters. -/
theorem claim5_counterexample :
    [JsValue.num ⟨1, 1⟩, JsValue.num ⟨5, 2⟩].filter bulkKeep ≠
      [JsValue.num ⟨1, 1⟩, JsValue.num ⟨5, 2⟩].filter isPositiveInteger ∧
    isPositiveInteger (JsValue.num ⟨5, 2⟩) = false ∧
    JsValue.num ⟨5, 2⟩ ∈ [JsValue.num ⟨1, 1⟩, JsValue.num ⟨5, 2⟩].filter bulkKeep ∧
    (bulkDeleteEmployees sampleStore
        (some [JsValue.num ⟨1, 1⟩, JsValue.num ⟨5, 2⟩])).stmts =
      [.deleteEmployeesIn [⟨1, 1⟩, ⟨5, 2⟩]] := by
  decide

/-- C5 (amended): on a non-empty `ids` list with at least one kept entry,
the filter keeps exactly the entries that coerce to a number greater than
zero (integral or not), those ids are deleted in one statement, only rows
whose id equals a kept value are removed, and `deletedCount` equals the
number of rows so removed. -/
theorem claim5_bulk_delete_amended (st : Store) (l : List JsValue)
    (hne : l ≠ []) (hv : l.filter bulkKeep ≠ []) :
    (bulkDeleteEmployees st (some l)).status = 200 ∧
    (bulkDeleteEmployees st (some l)).stmts =
      [.deleteEmployeesIn ((l.filter bulkKeep).filterMap jsToNumber)] ∧
    (bulkDeleteEmployees st (some l)).store.employees =
      st.employees.filter (fun e => !(bulkMatches ((l.filter bulkKeep).filterMap jsToNumber) e)) ∧
    (bulkDeleteEmployees st (some l)).deletedCount =
      some (st.employees.filter (bulkMatches ((l.filter bulkKeep).filterMap jsToNumber))).length := by
  have h1 : l.isEmpty = false := List.isEmpty_eq_false.mpr hne
  have h2 : (l.filter bulkKeep).isEmpty = false := List.isEmpty_eq_false.mpr hv
  unfold bulkDeleteEmployees
  simp only [h1, h2, Bool.false_eq_true, if_false]
  refine ⟨?_, ?_, ?_, ?_⟩ <;> trivial

/-- C5 witness: the amended theorem at the mixed concrete list `[1, 2.5]`
over a concrete store. -/
theorem claim5_bulk_delete_amended_witness :
    (bulkDeleteEmployees sampleStore
        (some [JsValue.num ⟨1, 1⟩, JsValue.num ⟨5, 2⟩])).status = 200 ∧
    (bulkDeleteEmployees sampleStore
        (some [JsValue.num ⟨1, 1⟩, JsValue.num ⟨5, 2⟩])).stmts =
      [.deleteEmployeesIn (([JsValue.num ⟨1, 1⟩, JsValue.num ⟨5, 2⟩].filter
          bulkKeep).filterMap jsToNumber)] ∧
    (bulkDeleteEmployees sampleStore
        (some [JsValue.num ⟨1, 1⟩, JsValue.num ⟨5, 2⟩])).store.employees =
      sampleStore.employees.filter
        (fun e => !(bulkMatches (([JsValue.num ⟨1, 1⟩, JsValue.num ⟨5, 2⟩].filter
            bulkKeep).filterMap jsToNumber) e)) ∧
    (bulkDeleteEmployees sampleStore
        (some [JsValue.num ⟨1, 1⟩, JsValue.num ⟨5, 2⟩])).deletedCount =
      some (sampleStore.employees.filter
        (bulkMatches (([JsValue.num ⟨1, 1⟩, JsValue.num ⟨5, 2⟩].filter
            bulkKeep).filterMap jsToNumber))).length :=
  claim5_bulk_delete_amended sampleStore [JsValue.num ⟨1, 1⟩, JsValue.num ⟨5, 2⟩]
    (by decide) (by decide)

/-- C9 counterexample: the department get-by-id issues its lookup query on
the non-numeric id `"abc"` — no numeric-id validation precedes the query —
whereas the employee route rejects the same id with 400 and no query. -/
theorem claim9_counterexample :
    strToNumber "abc" = none ∧
    (getDepartmentById sampleStore "abc").stmts = [.selectDeptById ⟨0, 1⟩] ∧
    (getDepartmentById sampleStore "abc").status = 404 ∧
    (getEmployeeById sampleStore "abc").stmts = [] ∧
    (getEmployeeById sampleStore "abc").status = 400 := by
  decide

/-- C9 (amended): the employee get-by-id validates the id numerically
before any query (an invalid id answers 400 with no statement issued) and
answers 404 when no row matches; the department get-by-id performs no
id validation — it always issues the lookup with the raw id — and answers
404 when no row matches. -/
theorem claim9_get_by_id_amended :
    (∀ (st : Store) (idStr : String), validIdStr idStr = false →
      (getEmployeeById st idStr).status = 400 ∧
      (getEmployeeById st idStr).stmts = []) ∧
    (∀ (st : Store) (idStr : String), validIdStr idStr = true →
      (st.employees.filter fun e => empIdIs e (mysqlStrToNum idStr)) = [] →
      (getEmployeeById st idStr).status = 404 ∧
      (getEmployeeById st idStr).stmts = [.selectEmployeeJoinedById (mysqlStrToNum idStr)]) ∧
    (∀ (st : Store) (idStr : String),
      (getDepartmentById st idStr).stmts = [.selectDeptById (mysqlStrToNum idStr)] ∧
      ((st.departments.filter fun d => deptIdIs d (mysqlStrToNum idStr)) = [] →
        (getDepartmentById st idStr).status = 404)) := by
  refine ⟨?_, ?_, ?_⟩
  · intro st idStr h
    unfold getEmployeeById
    rw [h]
    exact ⟨rfl, rfl⟩
  · intro st idStr hv hfil
    unfold getEmployeeById
    rw [hv]
    simp only [Bool.not_true, Bool.false_eq_true, if_false, hfil]
    refine ⟨?_, ?_⟩ <;> trivial
  · intro st idStr
    simp only [getDepartmentById]
    cases hr : st.departments.filter fun d => deptIdIs d (mysqlStrToNum idStr) with
    | nil => exact ⟨rfl, fun _ => rfl⟩
    | cons a t => exact ⟨rfl, fun hc => nomatch hc⟩

/-- C9 witness: the amended theorem at the concrete ids `"abc"`
(employee route) and `"9"` (department route, no matching row). -/
theorem claim9_get_by_id_amended_witness :
    ((getEmployeeById sampleStore "abc").status = 400 ∧
      (getEmployeeById sampleStore "abc").stmts = []) ∧
    (getDepartmentById sampleStore "9").status = 404 :=
  ⟨claim9_get_by_id_amended.1 sampleStore "abc" (by decide),
   (claim9_get_by_id_amended.2.2 sampleStore "9").2 (by decide)⟩

/-- C8 witness: the degraded pool at a concrete query. -/
theorem claim8_pool_degraded_witness :
    (getPoolResult none false).reachable = false ∧
    poolExecute (getPoolResult none false) "SELECT 1 + 1 AS solution" =
      .error (.dbError "ECONNREFUSED") :=
  ⟨claim8_pool_degraded.2.1, claim8_pool_degraded.2.2.1 "SELECT 1 + 1 AS solution"⟩

/-- C6 witness: an unrecognized `sortBy` at a concrete store and query. -/
theorem claim6_sort_fallback_witness :
    resolveSort "bogus" "DESC" = ("e.created_at", "DESC") ∧
    (listEmployees sampleStore
        { search := none, departmentId := none, status := none,
          page := 1, limit := 10, sortBy := "bogus", sortOrder := "DESC" }).success = true :=
  claim6_sort_fallback sampleStore
    { search := none, departmentId := none, status := none,
      page := 1, limit := 10, sortBy := "bogus", sortOrder := "DESC" }
    (Or.inl (by decide))

end Payroll
